import Mathlib

/-!
Verification of the aoc-bench benchmark harness and the aoc-bench-parser
report generator: a shallow embedding of src/aoc-bench/src/main.rs,
src/aoc-bench-parser/src/main.rs and src/aoc-traits/src/lib.rs.

Durations are modelled in nanoseconds. Floating point medians are modelled
as rationals; the constant factors 1.05 and the powers of ten used by the
source are modelled exactly.

Note on string literals: the non-ASCII string literals of the repository
files are stored in doubly encoded UTF-8 (each byte of the original UTF-8
re-encoded, with bytes undefined in cp1252 dropped). The definitions below
use the decoded, original literals (the micro sign and the emoji glyphs).
-/

namespace AocBench

/-- Substring test helper: does the needle (second argument) occur at the
head of the haystack (first argument)? -/
def listStartsWith : List Char → List Char → Bool
  | _, [] => true
  | [], _ :: _ => false
  | a :: as, b :: bs => a == b && listStartsWith as bs

/-- Substring containment on character lists. -/
def listContainsSub : List Char → List Char → Bool
  | [], needle => needle.isEmpty
  | a :: t, needle => listStartsWith (a :: t) needle || listContainsSub t needle

/-- Rust str contains: substring containment. Used by aoc-bench (the
"not yet implemented" panic-message check, main.rs lines 111 and 176) and
by aoc-bench-parser (the status-log lookups, main.rs lines 146-155). -/
def strContains (hay needle : String) : Bool :=
  listContainsSub hay.data needle.data

/-- ExecutionError from aoc-bench/src/main.rs lines 11-16. -/
inductive ExecutionError
  | Timeout
  | WrongAnswer
  | NotImplemented
  | Panic
  deriving DecidableEq

/-- Outcome of the bounded wait (recv_timeout) on a phase-check worker:
either the closure completed and returned a value, or it panicked (the
payload is the panic message when it downcasts to a static string slice,
none otherwise), or the deadline fired first. -/
inductive RecvResult (α : Type)
  | value (a : α)
  | panicked (payload : Option String)
  | timedOut
  deriving DecidableEq

/-- The abstract behaviour of one (author, problem) variant when driven by
bench_aoc_day: whether the registered type is the unit placeholder, and the
raw result of the parse, part1 and part2 check workers. For part1 and part2
the Bool carried by a completed run records whether the produced answer,
converted to a string, equals the expected answer. -/
structure DayBehavior where
  isUnitType : Bool
  parseRaw : RecvResult Unit
  part1Raw : RecvResult Bool
  part2Raw : RecvResult Bool

/-- What one call of bench_aoc_day produces: the three phase results that
are returned to bench_aoc, whether the part1 and part2 check workers were
spawned at all, and whether the synthetic Total benchmark was run. -/
structure DayRun where
  parseRes : Except ExecutionError Unit
  part1Res : Except ExecutionError Unit
  part2Res : Except ExecutionError Unit
  part1Attempted : Bool
  part2Attempted : Bool
  totalSampled : Bool

/-- Panic classification used for the part1 and part2 checks (main.rs lines
109-119 and 173-184): a payload that downcasts to a string slice containing
"not yet implemented" classifies NotImplemented, anything else Panic. -/
def classify_panic (payload : Option String) : ExecutionError :=
  match payload with
  | some msg =>
      if strContains msg "not yet implemented" then ExecutionError.NotImplemented
      else ExecutionError.Panic
  | none => ExecutionError.Panic

/-- Classification of the parse check (main.rs lines 56-60): a completed
run is Ok, a panic is always Panic (the payload is never inspected), and a
deadline overrun is Timeout. -/
def parse_check (r : RecvResult Unit) : Except ExecutionError Unit :=
  match r with
  | .value _ => Except.ok ()
  | .panicked _ => Except.error ExecutionError.Panic
  | .timedOut => Except.error ExecutionError.Timeout

/-- Classification of the part1 and part2 checks (main.rs lines 107-121 and
171-186): a completed run yields Ok or WrongAnswer according to the answer
comparison, a panic is classified by classify_panic, and a deadline overrun
is Timeout. -/
def check_with_answer (r : RecvResult Bool) : Except ExecutionError Unit :=
  match r with
  | .value true => Except.ok ()
  | .value false => Except.error ExecutionError.WrongAnswer
  | .panicked p => Except.error (classify_panic p)
  | .timedOut => Except.error ExecutionError.Timeout

/-- Control skeleton of bench_aoc_day (main.rs lines 18-225): the unit-type
placeholder short-circuits to NotImplemented for all three phases; a parse
timeout or panic short-circuits, propagating the same error to part1 and
part2 without spawning their workers; otherwise the part1 check and then
the part2 check are both run (the part2 check is run regardless of the
part1 result), and the synthetic Total benchmark runs exactly when the
part2 check returned Ok (line 188). -/
def bench_aoc_day (b : DayBehavior) : DayRun :=
  if b.isUnitType then
    ⟨Except.error ExecutionError.NotImplemented,
     Except.error ExecutionError.NotImplemented,
     Except.error ExecutionError.NotImplemented, false, false, false⟩
  else
    match parse_check b.parseRaw with
    | Except.error ExecutionError.Timeout =>
        ⟨Except.error ExecutionError.Timeout, Except.error ExecutionError.Timeout,
         Except.error ExecutionError.Timeout, false, false, false⟩
    | Except.error ExecutionError.Panic =>
        ⟨Except.error ExecutionError.Panic, Except.error ExecutionError.Panic,
         Except.error ExecutionError.Panic, false, false, false⟩
    | pr =>
        let r1 := check_with_answer b.part1Raw
        let r2 := check_with_answer b.part2Raw
        ⟨pr, r1, r2, true, true,
          match r2 with
          | Except.ok _ => true
          | Except.error _ => false⟩

/-- Parse deadline, seconds (main.rs line 56, Duration from_secs 1). -/
def parse_budget_secs : ℕ := 1

/-- Part1 deadline, seconds (main.rs line 107, Duration from_secs 10). -/
def part1_budget_secs : ℕ := 10

/-- Part2 deadline, seconds (main.rs line 171, Duration from_secs 30). -/
def part2_budget_secs : ℕ := 30

/-- Criterion sample-count selection used for the part1 and part2
benchmarks (main.rs lines 130-136 and 194-200), on the probe duration in
nanoseconds: strictly between 100ms and 1s selects 50 samples, strictly
above 1s selects 10, everything else selects 100. -/
def sample_size_for (durNs : ℕ) : ℕ :=
  if 100000000 < durNs ∧ durNs < 1000000000 then 50
  else if 1000000000 < durNs then 10
  else 100

/-- The parse benchmark always uses sample_size 100 (main.rs line 79). -/
def parse_bench_sample_size : ℕ := 100

/-- The status-log classification text printed by bench_aoc for a failing
phase (main.rs lines 260-265). -/
def execution_error_text : ExecutionError → String
  | ExecutionError.Timeout => "timeout"
  | ExecutionError.WrongAnswer => "wrong answer"
  | ExecutionError.NotImplemented => "not implemented"
  | ExecutionError.Panic => "panicked"

/-! The report generator, aoc-bench-parser/src/main.rs. Medians scanned
from the criterion output are modelled as association lists from user name
to median (the BTreeMaps of the source); a day is an association list from
phase name to such a map. -/

/-- Association-list lookup, modelling BTreeMap get. -/
def alookup (u : String) : List (String × ℚ) → Option ℚ
  | [] => none
  | kv :: t => if kv.1 = u then some kv.2 else alookup u t

/-- One iteration of the Total-synthesis loop over a single phase
(aoc-bench-parser main.rs lines 105-113): every user still in the running
total is dropped if the phase holds no median for that user, and otherwise
has that median added. -/
def step_phase (acc pm : List (String × ℚ)) : List (String × ℚ) :=
  acc.filterMap fun um =>
    match alookup um.1 pm with
    | some v => some (um.1, um.2 + v)
    | none => none

/-- Total-row synthesis for one day (main.rs lines 100-117): every user
starts at 0 and the step is folded over every phase recorded for the day.
The phase list is whatever was scanned from the criterion directory, which
includes the measured end-to-end "Total" phase whenever the harness
produced it. -/
def total_phase (users : List String) (phases : List (String × List (String × ℚ))) :
    List (String × ℚ) :=
  phases.foldl (fun acc ph => step_phase acc ph.2) (users.map fun u => (u, 0))

/-- Minimum median of a row (main.rs lines 132-137): the minimum of the
recorded values, defaulting to 0 when the row is empty. -/
def min_median (pm : List (String × ℚ)) : ℚ :=
  match pm.map Prod.snd with
  | [] => 0
  | h :: t => t.foldl min h

/-- Co-best test (main.rs line 141): median strictly below 1.05 times the
row minimum. -/
def is_cobest (median minMedian : ℚ) : Bool :=
  median < minMedian * (105 / 100)

/-- Unit scaling of a nanosecond value (helper::scale_nanoseconds_value,
main.rs lines 186-200). The powers of ten are modelled exactly. -/
def scale_nanoseconds_value (ns : ℚ) : ℚ × String :=
  if ns < 1 then (ns * 1000, "ps")
  else if ns < 1000 then (ns * 1, "ns")
  else if ns < 1000000 then (ns * (1 / 1000), "µs")
  else if ns < 1000000000 then (ns * (1 / 1000000), "ms")
  else (ns * (1 / 1000000000), "s")

/-- Three-digit zero padding for the fractional part. -/
def pad3 (n : ℕ) : String :=
  if n < 10 then "00" ++ toString n
  else if n < 100 then "0" ++ toString n
  else toString n

/-- Fixed-point formatting with three decimal places of a nonnegative
value, as Rust {:.3} renders the scaled medians (main.rs line 143). -/
def fmt3 (q : ℚ) : String :=
  let m := round (q * 1000)
  toString (m / 1000) ++ "." ++ pad3 (m % 1000).toNat

/-- Rendering of a duration cell without the co-best emphasis: scaled
value to three decimals followed by the unit (main.rs lines 142-143). -/
def render_duration (ns : ℚ) : String :=
  fmt3 (scale_nanoseconds_value ns).1 ++ (scale_nanoseconds_value ns).2

/-- Two-digit day formatting, Rust day:02 for day below 100. -/
def day2 (day : ℕ) : String :=
  if day < 10 then "0" ++ toString day else toString day

/-- A status-log line: user-dayDD-phase, colon, classification (bench_aoc
main.rs lines 257-286 produce these; the report generator searches for
them, main.rs lines 146-155). -/
def status_line (user : String) (day : ℕ) (phase cls : String) : String :=
  user ++ "-day" ++ day2 day ++ "-" ++ phase ++ ": " ++ cls

/-- Glyph for a not-implemented cell (main.rs line 147). -/
def glyph_not_implemented : String := "-"

/-- Glyph for an error cell (main.rs line 149). -/
def glyph_error : String := "😔"

/-- Glyph for a timed-out cell (main.rs line 151). -/
def glyph_timeout : String := "🐌"

/-- Glyph for a panicked cell (main.rs line 153). -/
def glyph_panicked : String := "💥"

/-- Glyph for a wrong-result cell (main.rs line 155). -/
def glyph_wrong_result : String := "❌"

/-- Glyph for a cell whose absence the log does not explain (main.rs
line 157). -/
def glyph_unknown : String := "⁉️"

/-- Glyph resolution for a cell with no recorded timing (main.rs lines
145-158): substring searches over the whole log, in the fixed order
not implemented, error, timeout, panicked, wrong result, falling back to
the unknown glyph. -/
def missing_cell_glyph (log user : String) (day : ℕ) (phase : String) : String :=
  if strContains log (status_line user day phase "not implemented") then
    glyph_not_implemented
  else if strContains log (status_line user day phase "error") then glyph_error
  else if strContains log (status_line user day phase "timeout") then glyph_timeout
  else if strContains log (status_line user day phase "panicked") then glyph_panicked
  else if strContains log (status_line user day phase "wrong result") then
    glyph_wrong_result
  else glyph_unknown

/-! Helper lemmas. -/

theorem foldl_min_le_init (t : List ℚ) (h : ℚ) : t.foldl min h ≤ h := by
  induction t generalizing h with
  | nil => exact le_rfl
  | cons a t ih => exact (ih (min h a)).trans (min_le_left h a)

theorem foldl_min_le (t : List ℚ) (h x : ℚ) (hx : x = h ∨ x ∈ t) :
    t.foldl min h ≤ x := by
  induction t generalizing h with
  | nil =>
    rcases hx with rfl | hmem
    · exact le_rfl
    · exact absurd hmem (List.not_mem_nil x)
  | cons a t ih =>
    rcases hx with rfl | hmem
    · exact (foldl_min_le_init t (min x a)).trans (min_le_left x a)
    · rcases List.mem_cons.mp hmem with rfl | hmem
      · exact (foldl_min_le_init t (min h x)).trans (min_le_right h x)
      · exact ih (min h a) (Or.inr hmem)

theorem min_median_le (pm : List (String × ℚ)) (x : ℚ)
    (hx : x ∈ pm.map Prod.snd) : min_median pm ≤ x := by
  unfold min_median
  cases hm : pm.map Prod.snd with
  | nil => rw [hm] at hx; exact absurd hx (List.not_mem_nil x)
  | cons h t =>
    rw [hm] at hx
    exact foldl_min_le t h x (List.mem_cons.mp hx)

theorem alookup_step_phase (u : String) (acc pm : List (String × ℚ)) :
    alookup u (step_phase acc pm) =
      (alookup u acc).bind fun m => (alookup u pm).map fun v => m + v := by
  induction acc with
  | nil => simp [step_phase, alookup]
  | cons a t ih =>
    obtain ⟨k, v⟩ := a
    by_cases hk : k = u
    · subst hk
      cases hpm : alookup k pm with
      | some w => simp [step_phase, List.filterMap_cons, hpm, alookup]
      | none =>
        simp only [step_phase, List.filterMap_cons, hpm, alookup, if_pos rfl]
        rw [← step_phase, ih, hpm]
        cases alookup k t <;> simp
    · cases hpm : alookup k pm with
      | some w =>
        simp only [step_phase, List.filterMap_cons, hpm, alookup, if_neg hk]
        rw [← step_phase, ih]
      | none =>
        simp only [step_phase, List.filterMap_cons, hpm, alookup, if_neg hk]
        rw [← step_phase, ih]

theorem alookup_init (u : String) (users : List String) :
    alookup u (users.map fun v => (v, (0 : ℚ))) =
      if u ∈ users then some 0 else none := by
  induction users with
  | nil => simp [alookup]
  | cons a t ih =>
    by_cases h : a = u
    · subst h; simp [alookup]
    · have h2 : ¬u = a := fun hh => h hh.symm
      simp [alookup, h, h2, ih]

theorem alookup_total_fold (phases : List (String × List (String × ℚ)))
    (acc : List (String × ℚ)) (u : String) :
    alookup u (phases.foldl (fun acc ph => step_phase acc ph.2) acc) =
      (alookup u acc).bind fun m0 =>
        if phases.all (fun ph => (alookup u ph.2).isSome) then
          some (m0 + ((phases.map fun ph => (alookup u ph.2).getD 0).sum))
        else none := by
  induction phases generalizing acc with
  | nil => cases h : alookup u acc <;> simp [h]
  | cons ph t ih =>
    rw [List.foldl_cons, ih, alookup_step_phase]
    cases hacc : alookup u acc with
    | none => simp
    | some m =>
      cases hph : alookup u ph.2 with
      | none => simp [hph]
      | some v =>
        simp only [List.all_cons, List.map_cons, List.sum_cons]
        rw [hph]
        simp only [Option.isSome_some, Option.getD_some, Option.map_some,
          Option.some_bind, add_assoc]
        rw [Bool.true_and]
        simp [add_assoc]

/-! The claim theorems. -/

/-- C9: the per-phase deadline budgets are fixed at parse 1s, part1 10s,
part2 30s, and they are monotonically non-decreasing. -/
theorem budgets_fixed_and_monotone :
    parse_budget_secs = 1 ∧ part1_budget_secs = 10 ∧ part2_budget_secs = 30 ∧
    parse_budget_secs ≤ part1_budget_secs ∧
    part1_budget_secs ≤ part2_budget_secs := by
  decide

/-- C8 counterexample: a probe duration of exactly one second selects 100
samples, not the 10 samples the claim requires for phases taking at least
one second. -/
theorem sample_size_boundary_counterexample :
    sample_size_for 1000000000 = 100 ∧ sample_size_for 1000000000 ≠ 10 := by
  decide

/-- C8 (amended): for the part1 and part2 benchmarks the sample count is
chosen from the probe duration with strict thresholds - strictly above one
second gives 10, strictly between 100ms and one second gives 50, and
everything else (at most 100ms, and also exactly one second) gives 100 -
while the parse benchmark always uses the fixed count 100. -/
theorem sample_size_policy (d1 d2 d3 : ℕ) (h1 : 1000000000 < d1)
    (h2 : 100000000 < d2) (h2b : d2 < 1000000000) (h3 : d3 ≤ 100000000) :
    sample_size_for d1 = 10 ∧ sample_size_for d2 = 50 ∧
    sample_size_for d3 = 100 ∧ sample_size_for 1000000000 = 100 ∧
    parse_bench_sample_size = 100 := by
  refine ⟨?_, ?_, ?_, by decide, rfl⟩ <;>
    · unfold sample_size_for
      split_ifs <;> omega

theorem sample_size_policy_witness :
    sample_size_for 2000000000 = 10 ∧ sample_size_for 500000000 = 50 ∧
    sample_size_for 1000000 = 100 ∧ sample_size_for 1000000000 = 100 ∧
    parse_bench_sample_size = 100 :=
  sample_size_policy 2000000000 500000000 1000000 (by omega) (by omega)
    (by omega) (by omega)

/-- C6: the row minimum is a lower bound of every recorded median, and on
the row A 100, B 104, C 200 (nanoseconds) exactly A and B are flagged
co-best: their medians are strictly below 1.05 times the minimum 100. -/
theorem cobest_row (pm : List (String × ℚ)) (x : ℚ)
    (hx : x ∈ pm.map Prod.snd) :
    min_median pm ≤ x ∧
    min_median [("A", (100 : ℚ)), ("B", 104), ("C", 200)] = 100 ∧
    is_cobest 100 (min_median [("A", (100 : ℚ)), ("B", 104), ("C", 200)]) = true ∧
    is_cobest 104 (min_median [("A", (100 : ℚ)), ("B", 104), ("C", 200)]) = true ∧
    is_cobest 200 (min_median [("A", (100 : ℚ)), ("B", 104), ("C", 200)]) = false := by
  refine ⟨min_median_le pm x hx, ?_, ?_, ?_, ?_⟩ <;>
    norm_num [min_median, is_cobest]

/-- C3 (amended): an author's synthesized Total value is the sum of that
author's medians over all phases recorded in the criterion output for the
problem - a list that includes the measured end-to-end Total sample
whenever the harness produced one - and the author's Total cell is blank
(absent from the row) exactly when the author is missing from at least one
recorded phase. -/
theorem total_phase_lookup (users : List String)
    (phases : List (String × List (String × ℚ))) (u : String) :
    alookup u (total_phase users phases) =
      if u ∈ users ∧ ∀ ph ∈ phases, (alookup u ph.2).isSome = true then
        some ((phases.map fun ph => (alookup u ph.2).getD 0).sum)
      else none := by
  rw [total_phase, alookup_total_fold, alookup_init]
  by_cases hu : u ∈ users
  · rw [if_pos hu, Option.some_bind]
    by_cases hb : ∀ ph ∈ phases, (alookup u ph.2).isSome = true
    · rw [if_pos (List.all_eq_true.mpr hb), if_pos ⟨hu, hb⟩, zero_add]
    · rw [if_neg (fun hall => hb (List.all_eq_true.mp hall)),
        if_neg (fun hc => hb hc.2)]
  · rw [if_neg hu, Option.none_bind, if_neg (fun hc => hu hc.1)]

/-- C3 counterexample: a problem where author a succeeded all three phases
(parse 1ns, part1 2ns, part2 3ns), so the measured end-to-end Total sample
(here 6ns) is also recorded; the synthesized Total is 12, not the claimed
sum 1 + 2 + 3 = 6 of the three phase durations. -/
theorem total_phase_counterexample :
    alookup "a" (total_phase ["a"]
        [("Total", [("a", (6 : ℚ))]), ("parse", [("a", 1)]),
         ("part1", [("a", 2)]), ("part2", [("a", 3)])]) = some 12 ∧
    (12 : ℚ) ≠ 1 + 2 + 3 := by
  constructor
  · norm_num [total_phase, step_phase, alookup]
  · norm_num

/-- C1 counterexample: parse succeeds, the part1 check completes with a
wrong answer, and the part2 check completes correctly; the harness still
spawns the part2 check worker and even reports part2 successful, instead
of skipping part2 and propagating the part1 failure to it. -/
theorem downstream_skip_counterexample :
    (bench_aoc_day ⟨false, RecvResult.value (), RecvResult.value false,
        RecvResult.value true⟩).part1Res = Except.error ExecutionError.WrongAnswer ∧
    (bench_aoc_day ⟨false, RecvResult.value (), RecvResult.value false,
        RecvResult.value true⟩).part2Attempted = true ∧
    (bench_aoc_day ⟨false, RecvResult.value (), RecvResult.value false,
        RecvResult.value true⟩).part2Res = Except.ok () :=
  ⟨rfl, rfl, rfl⟩

/-- C1 (amended): when the parse phase does not succeed (the unit-type
placeholder, a timeout, or a panic), part1 and part2 are not attempted at
all and both report the same classification as parse. A failed part1,
however, does not prevent the part2 attempt (the part2 check re-runs parse
and part1 inside its own closure). -/
theorem parse_failure_propagates (b : DayBehavior) (e : ExecutionError)
    (h : (bench_aoc_day b).parseRes = Except.error e) :
    (bench_aoc_day b).part1Res = Except.error e ∧
    (bench_aoc_day b).part2Res = Except.error e ∧
    (bench_aoc_day b).part1Attempted = false ∧
    (bench_aoc_day b).part2Attempted = false := by
  rcases b with ⟨u, pr, x1, x2⟩
  cases u
  · cases pr with
    | value a => cases a; simp [bench_aoc_day, parse_check] at h
    | panicked p =>
      simp only [bench_aoc_day, parse_check, Bool.false_eq_true, if_false,
        Except.error.injEq] at h
      subst h
      exact ⟨rfl, rfl, rfl, rfl⟩
    | timedOut =>
      simp only [bench_aoc_day, parse_check, Bool.false_eq_true, if_false,
        Except.error.injEq] at h
      subst h
      exact ⟨rfl, rfl, rfl, rfl⟩
  · simp only [bench_aoc_day, if_true, Except.error.injEq] at h
    subst h
    exact ⟨rfl, rfl, rfl, rfl⟩

theorem parse_failure_propagates_witness :
    (bench_aoc_day ⟨false, RecvResult.timedOut, RecvResult.value true,
        RecvResult.value true⟩).part1Res = Except.error ExecutionError.Timeout ∧
    (bench_aoc_day ⟨false, RecvResult.timedOut, RecvResult.value true,
        RecvResult.value true⟩).part2Res = Except.error ExecutionError.Timeout ∧
    (bench_aoc_day ⟨false, RecvResult.timedOut, RecvResult.value true,
        RecvResult.value true⟩).part1Attempted = false ∧
    (bench_aoc_day ⟨false, RecvResult.timedOut, RecvResult.value true,
        RecvResult.value true⟩).part2Attempted = false :=
  parse_failure_propagates
    ⟨false, RecvResult.timedOut, RecvResult.value true, RecvResult.value true⟩
    ExecutionError.Timeout rfl

/-- C2 counterexample: a parse-phase crash whose payload is exactly the
"not yet implemented" marker is classified Panic, not NotImplemented - the
parse check never inspects the payload. -/
theorem parse_marker_counterexample :
    (bench_aoc_day ⟨false, RecvResult.panicked (some "not yet implemented"),
        RecvResult.value true, RecvResult.value true⟩).parseRes
      = Except.error ExecutionError.Panic ∧
    ExecutionError.Panic ≠ ExecutionError.NotImplemented :=
  ⟨rfl, by decide⟩

/-- C2 (amended): for the part1 and part2 phases a crash before the
deadline is classified NotImplemented exactly when its payload downcasts
to a string containing "not yet implemented" and Panic otherwise, while a
parse-phase crash is always classified Panic, whatever the payload. -/
theorem crash_classification (b1 b2 : DayBehavior) (p q : Option String)
    (hu1 : b1.isUnitType = false) (hp1 : b1.parseRaw = RecvResult.panicked p)
    (hu2 : b2.isUnitType = false) (hp2 : b2.parseRaw = RecvResult.value ())
    (h1 : b2.part1Raw = RecvResult.panicked q)
    (h2 : b2.part2Raw = RecvResult.panicked q) :
    (bench_aoc_day b1).parseRes = Except.error ExecutionError.Panic ∧
    (bench_aoc_day b2).part1Res = Except.error (classify_panic q) ∧
    (bench_aoc_day b2).part2Res = Except.error (classify_panic q) := by
  rcases b1 with ⟨u1, pr1, a1, a2⟩
  rcases b2 with ⟨u2, pr2, c1, c2⟩
  dsimp only at hu1 hp1 hu2 hp2 h1 h2
  subst hu1 hp1 hu2 hp2 h1 h2
  exact ⟨rfl, rfl, rfl⟩

theorem crash_classification_witness :
    (bench_aoc_day ⟨false, RecvResult.panicked (some "boom"),
        RecvResult.value true, RecvResult.value true⟩).parseRes
      = Except.error ExecutionError.Panic ∧
    (bench_aoc_day ⟨false, RecvResult.value (),
        RecvResult.panicked (some "not yet implemented"),
        RecvResult.panicked (some "not yet implemented")⟩).part1Res
      = Except.error ExecutionError.NotImplemented ∧
    (bench_aoc_day ⟨false, RecvResult.value (),
        RecvResult.panicked (some "not yet implemented"),
        RecvResult.panicked (some "not yet implemented")⟩).part2Res
      = Except.error ExecutionError.NotImplemented :=
  crash_classification
    ⟨false, RecvResult.panicked (some "boom"), RecvResult.value true,
      RecvResult.value true⟩
    ⟨false, RecvResult.value (),
      RecvResult.panicked (some "not yet implemented"),
      RecvResult.panicked (some "not yet implemented")⟩
    (some "boom") (some "not yet implemented") rfl rfl rfl rfl rfl rfl

/-- C4 counterexample: the part1 check fails its answer comparison while
the part2 check succeeds; the synthetic Total benchmark is still run, so
"all three phases succeeded" is not the producing condition. -/
theorem total_sample_counterexample :
    (bench_aoc_day ⟨false, RecvResult.value (), RecvResult.value false,
        RecvResult.value true⟩).totalSampled = true ∧
    (bench_aoc_day ⟨false, RecvResult.value (), RecvResult.value false,
        RecvResult.value true⟩).part1Res = Except.error ExecutionError.WrongAnswer :=
  ⟨rfl, rfl⟩

/-- C4 (amended): the synthetic back-to-back Total sample is produced
exactly when the part2 correctness check returns Ok - which requires the
parse check to have succeeded, but not the part1 check. -/
theorem total_sample_iff (b : DayBehavior) :
    (bench_aoc_day b).totalSampled = true ↔
      (bench_aoc_day b).part2Res = Except.ok () := by
  rcases b with ⟨u, pr, x1, x2⟩
  cases u
  · cases pr with
    | value a =>
      cases a
      cases x2 with
      | value ok =>
        cases ok <;> simp [bench_aoc_day, parse_check, check_with_answer]
      | panicked p => simp [bench_aoc_day, parse_check, check_with_answer]
      | timedOut => simp [bench_aoc_day, parse_check, check_with_answer]
    | panicked p => simp [bench_aoc_day, parse_check]
    | timedOut => simp [bench_aoc_day, parse_check]
  · simp [bench_aoc_day]

/-- C5: the status log written by the harness for a failed answer
comparison says "wrong answer", but the report generator searches the log
for "wrong result", so a wrong-answer phase renders the unknown-error
glyph instead of the wrong-answer glyph documented in the report legend. -/
theorem wrong_answer_glyph_mismatch :
    missing_cell_glyph
        (status_line "dkales" 1 "part1"
          (execution_error_text ExecutionError.WrongAnswer))
        "dkales" 1 "part1" = glyph_unknown ∧
    glyph_unknown ≠ glyph_wrong_result := by
  constructor
  · rfl
  · decide

/-- C10: glyph resolution is substring containment of the pattern over the
whole log, in the fixed order not implemented, error, timeout, panicked,
wrong result; since the user name is only a prefix of the searched
pattern, the cell of a user whose name is a suffix of another user's name
inherits a glyph from the longer-named user's log line - here alice
inherits the timeout glyph from the line emitted for malice. -/
theorem suffix_user_glyph_capture :
    missing_cell_glyph (status_line "malice" 1 "parse" "timeout")
        "alice" 1 "parse" = glyph_timeout ∧
    missing_cell_glyph
        (status_line "alice" 1 "parse" "not implemented" ++ "\n" ++
          status_line "alice" 1 "parse" "timeout") "alice" 1 "parse"
        = glyph_not_implemented :=
  ⟨rfl, rfl⟩

/-- C7: the scaled mantissa stays in the interval from 1 (inclusive) to
1000 (exclusive) for inputs from 1ns up to (but excluding) 1s, and the
four spec examples render as claimed: 0.5ns as 500.000ps, 1500ns as
1.500µs, 2500000ns as 2.500ms and 3000000000ns as 3.000s. -/
theorem duration_rendering (ns : ℚ) (h1 : 1 ≤ ns) (h2 : ns < 1000000000) :
    1 ≤ (scale_nanoseconds_value ns).1 ∧
    (scale_nanoseconds_value ns).1 < 1000 ∧
    render_duration (1 / 2) = "500.000ps" ∧
    render_duration 1500 = "1.500µs" ∧
    render_duration 2500000 = "2.500ms" ∧
    render_duration 3000000000 = "3.000s" := by
  have e1 : render_duration (1 / 2) = "500.000ps" := by
    norm_num [render_duration, scale_nanoseconds_value, fmt3, round_eq]
    try rfl
  have e2 : render_duration 1500 = "1.500µs" := by
    norm_num [render_duration, scale_nanoseconds_value, fmt3, round_eq]
    try rfl
  have e3 : render_duration 2500000 = "2.500ms" := by
    norm_num [render_duration, scale_nanoseconds_value, fmt3, round_eq]
    try rfl
  have e4 : render_duration 3000000000 = "3.000s" := by
    norm_num [render_duration, scale_nanoseconds_value, fmt3, round_eq]
    try rfl
  refine ⟨?_, ?_, e1, e2, e3, e4⟩
  · unfold scale_nanoseconds_value
    split_ifs <;> dsimp only <;> linarith
  · unfold scale_nanoseconds_value
    split_ifs <;> dsimp only <;> linarith

theorem duration_rendering_witness :
    1 ≤ (scale_nanoseconds_value 1500).1 ∧
    (scale_nanoseconds_value 1500).1 < 1000 ∧
    render_duration (1 / 2) = "500.000ps" ∧
    render_duration 1500 = "1.500µs" ∧
    render_duration 2500000 = "2.500ms" ∧
    render_duration 3000000000 = "3.000s" :=
  duration_rendering 1500 (by norm_num) (by norm_num)

theorem cobest_row_witness :
    min_median [("A", (100 : ℚ)), ("B", 104), ("C", 200)] ≤ 104 ∧
    min_median [("A", (100 : ℚ)), ("B", 104), ("C", 200)] = 100 ∧
    is_cobest 100 (min_median [("A", (100 : ℚ)), ("B", 104), ("C", 200)]) = true ∧
    is_cobest 104 (min_median [("A", (100 : ℚ)), ("B", 104), ("C", 200)]) = true ∧
    is_cobest 200 (min_median [("A", (100 : ℚ)), ("B", 104), ("C", 200)]) = false :=
  cobest_row [("A", (100 : ℚ)), ("B", 104), ("C", 200)] 104 (by norm_num)

end AocBench
